import Mathlib

/-!
Verification of consistency between the payment-escrow specification and the
contract source `src/contracts/payment_escrow/lib.rs`.

The contract is shallowly embedded: party addresses (`H160`) and payment
hashes (`H256`) are modelled as `Nat`; balances (`u128`) are `Nat` together
with an explicit truncation at `2 ^ 128` where the source performs
`try_into().unwrap_or_default()`; the ink `Mapping` is an association list
with first-match lookup and in-place overwrite; the execution environment
(caller, transferred value, block timestamp, and whether the native transfer
succeeds) is an explicit `Env` record.  Every public message becomes a total
function from the pre-state and environment to an `Outcome`: the returned
`Result`, the post-state, the emitted events, and the list of attempted
native transfers (recipient, amount).
-/

/-- `enum EscrowStatus` of the contract. -/
inductive EscrowStatus where
  | Pending
  | Completed
  | Refunded
  | Disputed
  deriving DecidableEq, Repr

/-- `struct EscrowDetails` of the contract.  `H160`/`H256` are modelled as
`Nat`, `Balance` (`u128`) as `Nat`. -/
structure EscrowDetails where
  id : Nat
  payer : Nat
  payee : Nat
  amount : Nat
  service_id : Nat
  status : EscrowStatus
  created_at : Nat
  completed_at : Option Nat
  payment_code : String
  uses_x402 : Bool
  x402_payment_hash : Option Nat
  x402_verified : Bool
  x402_token_address : Option Nat
  deriving DecidableEq, Repr

/-- `enum Error` of the contract. -/
inductive Error where
  | EscrowNotFound
  | Unauthorized
  | InvalidAmount
  | InvalidStatus
  | InsufficientFunds
  | TransferFailed
  | AlreadyCompleted
  | EscrowExpired
  deriving DecidableEq, Repr

/-- The contract storage `struct PaymentEscrow`: the `escrows` mapping, the
monotone `escrow_count`, the per-user index `user_escrows`, and the fixed
`escrow_timeout` (milliseconds). -/
structure PaymentEscrow where
  escrows : List (Nat × EscrowDetails)
  escrow_count : Nat
  user_escrows : List (Nat × List Nat)
  escrow_timeout : Nat
  deriving DecidableEq, Repr

/-- The execution environment of a single message call: `self.env().caller()`,
`self.env().transferred_value()`, `self.env().block_timestamp()`, and whether
`self.env().transfer(..)` succeeds during this call. -/
structure Env where
  caller : Nat
  transferredValue : Nat
  blockTimestamp : Nat
  transferOk : Bool
  deriving DecidableEq, Repr

/-- The `#[ink(event)]` declarations of the contract. -/
inductive Event where
  | EscrowCreated (escrow_id payer payee : Nat) (amount : Nat) (service_id : Nat)
  | X402PaymentLinked (escrow_id : Nat) (payment_hash : Nat)
  | X402PaymentVerified (escrow_id payee : Nat)
  | EscrowCompleted (escrow_id payee : Nat) (amount : Nat)
  | EscrowRefunded (escrow_id payer : Nat) (amount : Nat)
  | EscrowDisputed (escrow_id disputer : Nat)
  deriving DecidableEq, Repr

/-- Result of one message call: the returned `Result`, the post-state, the
events emitted, and the native transfers attempted (recipient, amount). -/
structure Outcome (α : Type) where
  res : Except Error α
  state : PaymentEscrow
  events : List Event
  transfers : List (Nat × Nat)

/-- Lookup in an ink `Mapping`, modelled as first-match association-list
lookup. -/
def mapGet {α : Type} (k : Nat) : List (Nat × α) → Option α
  | [] => none
  | (k2, v) :: rest => if k = k2 then some v else mapGet k rest

/-- Insert into an ink `Mapping`: overwrite in place if the key is present,
otherwise append. -/
def mapInsert {α : Type} (k : Nat) (v : α) : List (Nat × α) → List (Nat × α)
  | [] => [(k, v)]
  | (k2, v2) :: rest =>
      if k = k2 then (k, v) :: rest else (k2, v2) :: mapInsert k v rest

/-- `u128::MAX + 1`: the first attached value that does not fit `Balance`. -/
def balanceLimit : Nat := 2 ^ 128

/-- `amount.try_into().unwrap_or_default()`: convert the attached `U256` value
to the `Balance` (`u128`) field, falling back to the default `0` when the
value exceeds `u128::MAX`. -/
def balanceTryIntoOrDefault (v : Nat) : Nat :=
  if v < balanceLimit then v else 0

/-- Constructor `new(escrow_timeout)`: empty mappings, count `0`. -/
def PaymentEscrow.new (escrow_timeout : Nat) : PaymentEscrow :=
  { escrows := [], escrow_count := 0, user_escrows := [], escrow_timeout }

/-- Message `is_escrow_expired`: `elapsed = now.saturating_sub(created_at)`
(`Nat` subtraction is saturating) and expired iff `elapsed > escrow_timeout`. -/
def is_escrow_expired (st : PaymentEscrow) (env : Env) (escrow_id : Nat) :
    Except Error Bool :=
  match mapGet escrow_id st.escrows with
  | none => .error .EscrowNotFound
  | some escrow =>
      .ok (decide (st.escrow_timeout < env.blockTimestamp - escrow.created_at))

/-- Message `create_escrow`. -/
def create_escrow (st : PaymentEscrow) (env : Env) (payee service_id : Nat)
    (payment_code : String) (uses_x402 : Bool)
    (x402_token_address : Option Nat) : Outcome Nat :=
  let payer := env.caller
  let amount := env.transferredValue
  if !uses_x402 && amount = 0 then
    ⟨.error .InvalidAmount, st, [], []⟩
  else
    let escrow_count := st.escrow_count + 1
    let escrow_id := escrow_count
    let escrow : EscrowDetails :=
      { id := escrow_id
        payer
        payee
        amount := balanceTryIntoOrDefault amount
        service_id
        status := .Pending
        created_at := env.blockTimestamp
        completed_at := none
        payment_code
        uses_x402
        x402_payment_hash := none
        x402_verified := false
        x402_token_address }
    let escrows := mapInsert escrow_id escrow st.escrows
    let payer_escrows := (mapGet payer st.user_escrows).getD [] ++ [escrow_id]
    let user_escrows := mapInsert payer payer_escrows st.user_escrows
    let payee_escrows := (mapGet payee user_escrows).getD [] ++ [escrow_id]
    let user_escrows := mapInsert payee payee_escrows user_escrows
    ⟨.ok escrow_id,
      { st with escrows, escrow_count, user_escrows },
      [.EscrowCreated escrow_id payer payee (balanceTryIntoOrDefault amount)
        service_id],
      []⟩

/-- Message `release_payment` (manual release by the payer). -/
def release_payment (st : PaymentEscrow) (env : Env) (escrow_id : Nat) :
    Outcome Unit :=
  let caller := env.caller
  match mapGet escrow_id st.escrows with
  | none => ⟨.error .EscrowNotFound, st, [], []⟩
  | some escrow =>
    if escrow.payer ≠ caller then ⟨.error .Unauthorized, st, [], []⟩
    else if escrow.status ≠ .Pending then ⟨.error .InvalidStatus, st, [], []⟩
    else if escrow.uses_x402 then ⟨.error .InvalidStatus, st, [], []⟩
    else
      match is_escrow_expired st env escrow_id with
      | .error e => ⟨.error e, st, [], []⟩
      | .ok expired =>
        if expired then ⟨.error .EscrowExpired, st, [], []⟩
        else if !env.transferOk then
          ⟨.error .TransferFailed, st, [], [(escrow.payee, escrow.amount)]⟩
        else
          let escrow2 : EscrowDetails :=
            { escrow with
                status := .Completed
                completed_at := some env.blockTimestamp }
          ⟨.ok (),
            { st with escrows := mapInsert escrow_id escrow2 st.escrows },
            [.EscrowCompleted escrow_id escrow.payee escrow.amount],
            [(escrow.payee, escrow.amount)]⟩

/-- Message `auto_release_payment` (timeout-triggered release by the payee). -/
def auto_release_payment (st : PaymentEscrow) (env : Env) (escrow_id : Nat) :
    Outcome Unit :=
  let caller := env.caller
  match mapGet escrow_id st.escrows with
  | none => ⟨.error .EscrowNotFound, st, [], []⟩
  | some escrow =>
    if escrow.payee ≠ caller then ⟨.error .Unauthorized, st, [], []⟩
    else if escrow.status ≠ .Pending then ⟨.error .InvalidStatus, st, [], []⟩
    else
      match is_escrow_expired st env escrow_id with
      | .error e => ⟨.error e, st, [], []⟩
      | .ok expired =>
        if !expired then ⟨.error .InvalidStatus, st, [], []⟩
        else if !env.transferOk then
          ⟨.error .TransferFailed, st, [], [(escrow.payee, escrow.amount)]⟩
        else
          let escrow2 : EscrowDetails :=
            { escrow with
                status := .Completed
                completed_at := some env.blockTimestamp }
          ⟨.ok (),
            { st with escrows := mapInsert escrow_id escrow2 st.escrows },
            [.EscrowCompleted escrow_id escrow.payee escrow.amount],
            [(escrow.payee, escrow.amount)]⟩

/-- Message `refund` (return funds to the payer). -/
def refund (st : PaymentEscrow) (env : Env) (escrow_id : Nat) : Outcome Unit :=
  let caller := env.caller
  match mapGet escrow_id st.escrows with
  | none => ⟨.error .EscrowNotFound, st, [], []⟩
  | some escrow =>
    match is_escrow_expired st env escrow_id with
    | .error e => ⟨.error e, st, [], []⟩
    | .ok expired =>
      let is_authorized :=
        escrow.payer = caller ∨ (escrow.payee = caller ∧ expired = true)
      if ¬ is_authorized then ⟨.error .Unauthorized, st, [], []⟩
      else if escrow.status ≠ .Pending then ⟨.error .InvalidStatus, st, [], []⟩
      else if !env.transferOk then
        ⟨.error .TransferFailed, st, [], [(escrow.payer, escrow.amount)]⟩
      else
        let escrow2 : EscrowDetails :=
          { escrow with
              status := .Refunded
              completed_at := some env.blockTimestamp }
        ⟨.ok (),
          { st with escrows := mapInsert escrow_id escrow2 st.escrows },
          [.EscrowRefunded escrow_id escrow.payer escrow.amount],
          [(escrow.payer, escrow.amount)]⟩

/-- Message `link_x402_payment`: record the externally obtained payment hash.
Note the source emits no event here (the declared `X402PaymentLinked` event is
never emitted). -/
def link_x402_payment (st : PaymentEscrow) (env : Env)
    (escrow_id x402_payment_hash : Nat) : Outcome Unit :=
  let caller := env.caller
  match mapGet escrow_id st.escrows with
  | none => ⟨.error .EscrowNotFound, st, [], []⟩
  | some escrow =>
    if escrow.payer ≠ caller ∧ escrow.payee ≠ caller then
      ⟨.error .Unauthorized, st, [], []⟩
    else if !escrow.uses_x402 then ⟨.error .InvalidStatus, st, [], []⟩
    else if escrow.status ≠ .Pending then ⟨.error .InvalidStatus, st, [], []⟩
    else
      let escrow2 : EscrowDetails :=
        { escrow with x402_payment_hash := some x402_payment_hash }
      ⟨.ok (),
        { st with escrows := mapInsert escrow_id escrow2 st.escrows },
        [],
        []⟩

/-- Message `verify_x402_payment`: the payee marks the linked payment as
verified (trusted assertion; no cryptographic check in the source). -/
def verify_x402_payment (st : PaymentEscrow) (env : Env) (escrow_id : Nat) :
    Outcome Unit :=
  let caller := env.caller
  match mapGet escrow_id st.escrows with
  | none => ⟨.error .EscrowNotFound, st, [], []⟩
  | some escrow =>
    if escrow.payee ≠ caller then ⟨.error .Unauthorized, st, [], []⟩
    else if !escrow.uses_x402 then ⟨.error .InvalidStatus, st, [], []⟩
    else if escrow.x402_payment_hash = none then
      ⟨.error .InvalidStatus, st, [], []⟩
    else if escrow.status ≠ .Pending then ⟨.error .InvalidStatus, st, [], []⟩
    else
      let escrow2 : EscrowDetails := { escrow with x402_verified := true }
      ⟨.ok (),
        { st with escrows := mapInsert escrow_id escrow2 st.escrows },
        [],
        []⟩

/-- Message `release_x402_payment`: complete a verified external-channel
escrow; no native transfer is made. -/
def release_x402_payment (st : PaymentEscrow) (env : Env) (escrow_id : Nat) :
    Outcome Unit :=
  let caller := env.caller
  match mapGet escrow_id st.escrows with
  | none => ⟨.error .EscrowNotFound, st, [], []⟩
  | some escrow =>
    if escrow.payee ≠ caller then ⟨.error .Unauthorized, st, [], []⟩
    else if !escrow.uses_x402 then ⟨.error .InvalidStatus, st, [], []⟩
    else if escrow.status ≠ .Pending then ⟨.error .InvalidStatus, st, [], []⟩
    else if !escrow.x402_verified then ⟨.error .InvalidStatus, st, [], []⟩
    else
      let escrow2 : EscrowDetails :=
        { escrow with
            status := .Completed
            completed_at := some env.blockTimestamp }
      ⟨.ok (),
        { st with escrows := mapInsert escrow_id escrow2 st.escrows },
        [.EscrowCompleted escrow_id escrow.payee escrow.amount],
        []⟩

/-- Message `dispute_escrow`: either party freezes a pending escrow. -/
def dispute_escrow (st : PaymentEscrow) (env : Env) (escrow_id : Nat) :
    Outcome Unit :=
  let caller := env.caller
  match mapGet escrow_id st.escrows with
  | none => ⟨.error .EscrowNotFound, st, [], []⟩
  | some escrow =>
    if escrow.payer ≠ caller ∧ escrow.payee ≠ caller then
      ⟨.error .Unauthorized, st, [], []⟩
    else if escrow.status ≠ .Pending then ⟨.error .InvalidStatus, st, [], []⟩
    else
      let escrow2 : EscrowDetails := { escrow with status := .Disputed }
      ⟨.ok (),
        { st with escrows := mapInsert escrow_id escrow2 st.escrows },
        [.EscrowDisputed escrow_id caller],
        []⟩

/-- Message `get_x402_payment_hash`. -/
def get_x402_payment_hash (st : PaymentEscrow) (escrow_id : Nat) :
    Except Error (Option Nat) :=
  match mapGet escrow_id st.escrows with
  | none => .error .EscrowNotFound
  | some escrow => .ok escrow.x402_payment_hash

/-- Message `is_x402_escrow`. -/
def is_x402_escrow (st : PaymentEscrow) (escrow_id : Nat) :
    Except Error Bool :=
  match mapGet escrow_id st.escrows with
  | none => .error .EscrowNotFound
  | some escrow => .ok escrow.uses_x402

/-- Message `get_escrow`. -/
def get_escrow (st : PaymentEscrow) (escrow_id : Nat) :
    Except Error EscrowDetails :=
  match mapGet escrow_id st.escrows with
  | none => .error .EscrowNotFound
  | some escrow => .ok escrow

/-- Message `get_user_escrows`. -/
def get_user_escrows (st : PaymentEscrow) (user : Nat) : List Nat :=
  (mapGet user st.user_escrows).getD []

/-- Message `get_escrow_count`. -/
def get_escrow_count (st : PaymentEscrow) : Nat :=
  st.escrow_count

/-- Message `get_escrow_timeout`. -/
def get_escrow_timeout (st : PaymentEscrow) : Nat :=
  st.escrow_timeout

/-- One public message of the contract, with its arguments. -/
inductive Op where
  | createEscrow (payee service_id : Nat) (payment_code : String)
      (uses_x402 : Bool) (x402_token_address : Option Nat)
  | releasePayment (escrow_id : Nat)
  | autoReleasePayment (escrow_id : Nat)
  | refund (escrow_id : Nat)
  | linkX402Payment (escrow_id x402_payment_hash : Nat)
  | verifyX402Payment (escrow_id : Nat)
  | releaseX402Payment (escrow_id : Nat)
  | disputeEscrow (escrow_id : Nat)
  | getX402PaymentHash (escrow_id : Nat)
  | isX402Escrow (escrow_id : Nat)
  | getEscrow (escrow_id : Nat)
  | getUserEscrows (user : Nat)
  | getEscrowCount
  | isEscrowExpired (escrow_id : Nat)
  | getEscrowTimeout

/-- The error (if any) returned by an `Except` result. -/
def errOf {α : Type} : Except Error α → Option Error
  | .ok _ => none
  | .error e => some e

/-- Dispatch one public message: the post-state and the returned error, if
any. -/
def stepOutcome (st : PaymentEscrow) (env : Env) : Op → PaymentEscrow × Option Error
  | .createEscrow p s c u t =>
      let o := create_escrow st env p s c u t; (o.state, errOf o.res)
  | .releasePayment i =>
      let o := release_payment st env i; (o.state, errOf o.res)
  | .autoReleasePayment i =>
      let o := auto_release_payment st env i; (o.state, errOf o.res)
  | .refund i =>
      let o := refund st env i; (o.state, errOf o.res)
  | .linkX402Payment i h =>
      let o := link_x402_payment st env i h; (o.state, errOf o.res)
  | .verifyX402Payment i =>
      let o := verify_x402_payment st env i; (o.state, errOf o.res)
  | .releaseX402Payment i =>
      let o := release_x402_payment st env i; (o.state, errOf o.res)
  | .disputeEscrow i =>
      let o := dispute_escrow st env i; (o.state, errOf o.res)
  | .getX402PaymentHash i => (st, errOf (get_x402_payment_hash st i))
  | .isX402Escrow i => (st, errOf (is_x402_escrow st i))
  | .getEscrow i => (st, errOf (get_escrow st i))
  | .getUserEscrows _ => (st, none)
  | .getEscrowCount => (st, none)
  | .isEscrowExpired i => (st, errOf (is_escrow_expired st env i))
  | .getEscrowTimeout => (st, none)

/-- Run a sequence of public messages, each under its own environment. -/
def run (st : PaymentEscrow) : List (Env × Op) → PaymentEscrow
  | [] => st
  | s :: rest => run (stepOutcome st s.1 s.2).1 rest

/-- A state reachable from a freshly constructed contract by some sequence of
public messages. -/
def reachable (escrow_timeout : Nat) (steps : List (Env × Op)) : PaymentEscrow :=
  run (PaymentEscrow.new escrow_timeout) steps

/-! ## Map lemmas -/

theorem mapGet_mapInsert_self {α : Type} (k : Nat) (v : α)
    (m : List (Nat × α)) : mapGet k (mapInsert k v m) = some v := by
  induction m with
  | nil => simp [mapGet, mapInsert]
  | cons hd tl ih =>
      obtain ⟨k2, v2⟩ := hd
      by_cases h : k = k2
      · simp [mapGet, mapInsert, h]
      · simp [mapGet, mapInsert, h, ih]

theorem mapGet_mapInsert_ne {α : Type} {k k2 : Nat} (h : k ≠ k2) (v : α)
    (m : List (Nat × α)) : mapGet k (mapInsert k2 v m) = mapGet k m := by
  induction m with
  | nil => simp [mapGet, mapInsert, h]
  | cons hd tl ih =>
      obtain ⟨k3, v3⟩ := hd
      by_cases h2 : k2 = k3
      · subst h2; simp [mapGet, mapInsert, h]
      · by_cases h3 : k = k3 <;> simp [mapGet, mapInsert, h2, h3, ih]

/-! ## Record-level invariants and the per-step shape of every message -/

/-- The fields the spec declares immutable after creation. -/
def frozenFields (r r2 : EscrowDetails) : Prop :=
  r2.payer = r.payer ∧ r2.payee = r.payee ∧ r2.amount = r.amount ∧
  r2.created_at = r.created_at ∧ r2.uses_x402 = r.uses_x402

/-- `completed_at` is `none` exactly on the `Pending` and `Disputed` statuses. -/
def completedAtStatus (r : EscrowDetails) : Prop :=
  r.completed_at = none ↔ (r.status = .Pending ∨ r.status = .Disputed)

/-- Per-record invariant: the `completed_at`/`status` correlation, and
`x402_verified` only with a linked payment hash. -/
def RecordInv (r : EscrowDetails) : Prop :=
  completedAtStatus r ∧ (r.x402_verified = true → r.x402_payment_hash ≠ none)

/-- The five ways a single message can rewrite an existing record, all of
them only from `Pending`: complete, refund, dispute, link a hash, or mark
verified (the latter only when a hash is present). -/
def recTrans (ts : Nat) (r r2 : EscrowDetails) : Prop :=
  r.status = .Pending ∧
  (r2 = { r with status := .Completed, completed_at := some ts } ∨
   r2 = { r with status := .Refunded, completed_at := some ts } ∨
   r2 = { r with status := .Disputed } ∨
   (∃ h, r2 = { r with x402_payment_hash := some h }) ∨
   (r.x402_payment_hash ≠ none ∧ r2 = { r with x402_verified := true }))

/-- Store invariant: every stored id is at most `escrow_count`, and every
stored record satisfies `RecordInv`. -/
def Invariant (st : PaymentEscrow) : Prop :=
  ∀ id r, mapGet id st.escrows = some r → id ≤ st.escrow_count ∧ RecordInv r

/-- Shape of one step: every message either leaves the escrow map and the
count unchanged, or inserts a fresh `Pending` record at id `count + 1`, or
rewrites one existing record by a legal `recTrans` transition. -/
theorem stepShape (st : PaymentEscrow) (env : Env) (op : Op) :
    ((stepOutcome st env op).1.escrows = st.escrows ∧
      (stepOutcome st env op).1.escrow_count = st.escrow_count) ∨
    (∃ rec : EscrowDetails, rec.status = .Pending ∧ rec.completed_at = none ∧
      rec.x402_verified = false ∧
      (stepOutcome st env op).1.escrows =
        mapInsert (st.escrow_count + 1) rec st.escrows ∧
      (stepOutcome st env op).1.escrow_count = st.escrow_count + 1) ∨
    (∃ k r r2, mapGet k st.escrows = some r ∧
      recTrans env.blockTimestamp r r2 ∧
      (stepOutcome st env op).1.escrows = mapInsert k r2 st.escrows ∧
      (stepOutcome st env op).1.escrow_count = st.escrow_count) := by
  cases op with
  | createEscrow p s c u t =>
      by_cases h0 : !u && env.transferredValue = 0
      · left; simp [stepOutcome, create_escrow, h0]
      · right; left
        refine ⟨{ id := st.escrow_count + 1, payer := env.caller, payee := p,
                  amount := balanceTryIntoOrDefault env.transferredValue,
                  service_id := s, status := .Pending,
                  created_at := env.blockTimestamp, completed_at := none,
                  payment_code := c, uses_x402 := u,
                  x402_payment_hash := none, x402_verified := false,
                  x402_token_address := t },
                rfl, rfl, rfl, ?_, ?_⟩ <;>
          simp [stepOutcome, create_escrow, h0]
  | releasePayment i =>
      cases hg : mapGet i st.escrows with
      | none => left; simp [stepOutcome, release_payment, hg]
      | some escrow =>
          simp only [stepOutcome, release_payment, is_escrow_expired, hg]
          split_ifs with h1 h2 h3 h4 h5
          · left; exact ⟨rfl, rfl⟩
          · left; exact ⟨rfl, rfl⟩
          · left; exact ⟨rfl, rfl⟩
          · left; exact ⟨rfl, rfl⟩
          · left; exact ⟨rfl, rfl⟩
          · right; right
            exact ⟨i, escrow, _, hg, ⟨not_not.mp h2, Or.inl rfl⟩, rfl, rfl⟩
  | autoReleasePayment i =>
      cases hg : mapGet i st.escrows with
      | none => left; simp [stepOutcome, auto_release_payment, hg]
      | some escrow =>
          simp only [stepOutcome, auto_release_payment, is_escrow_expired, hg]
          split_ifs with h1 h2 h3 h4
          · left; exact ⟨rfl, rfl⟩
          · left; exact ⟨rfl, rfl⟩
          · left; exact ⟨rfl, rfl⟩
          · left; exact ⟨rfl, rfl⟩
          · right; right
            exact ⟨i, escrow, _, hg, ⟨not_not.mp h2, Or.inl rfl⟩, rfl, rfl⟩
  | refund i =>
      cases hg : mapGet i st.escrows with
      | none => left; simp [stepOutcome, refund, hg]
      | some escrow =>
          simp only [stepOutcome, refund, is_escrow_expired, hg]
          by_cases hau : escrow.payer = env.caller ∨
              (escrow.payee = env.caller ∧
                decide (st.escrow_timeout <
                  env.blockTimestamp - escrow.created_at) = true)
          · by_cases hst : escrow.status = EscrowStatus.Pending
            · by_cases htr : env.transferOk = true
              · right; right
                rw [if_neg (not_not_intro hau), if_neg (not_not_intro hst),
                  if_neg (show ¬((!env.transferOk) = true) by simp [htr])]
                exact ⟨i, escrow, _, hg, ⟨hst, Or.inr (Or.inl rfl)⟩, rfl, rfl⟩
              · left
                rw [if_neg (not_not_intro hau), if_neg (not_not_intro hst),
                  if_pos (show (!env.transferOk) = true by simp_all)]
                exact ⟨rfl, rfl⟩
            · left
              rw [if_neg (not_not_intro hau), if_pos hst]
              exact ⟨rfl, rfl⟩
          · left
            rw [if_pos hau]
            exact ⟨rfl, rfl⟩
  | linkX402Payment i h =>
      cases hg : mapGet i st.escrows with
      | none => left; simp [stepOutcome, link_x402_payment, hg]
      | some escrow =>
          simp only [stepOutcome, link_x402_payment, hg]
          split_ifs with h1 h2 h3
          · left; exact ⟨rfl, rfl⟩
          · left; exact ⟨rfl, rfl⟩
          · left; exact ⟨rfl, rfl⟩
          · right; right
            exact ⟨i, escrow, _, hg,
              ⟨not_not.mp h3, Or.inr (Or.inr (Or.inr (Or.inl ⟨h, rfl⟩)))⟩,
              rfl, rfl⟩
  | verifyX402Payment i =>
      cases hg : mapGet i st.escrows with
      | none => left; simp [stepOutcome, verify_x402_payment, hg]
      | some escrow =>
          simp only [stepOutcome, verify_x402_payment, hg]
          split_ifs with h1 h2 h3 h4
          · left; exact ⟨rfl, rfl⟩
          · left; exact ⟨rfl, rfl⟩
          · left; exact ⟨rfl, rfl⟩
          · left; exact ⟨rfl, rfl⟩
          · right; right
            exact ⟨i, escrow, _, hg,
              ⟨not_not.mp h4, Or.inr (Or.inr (Or.inr (Or.inr ⟨h3, rfl⟩)))⟩,
              rfl, rfl⟩
  | releaseX402Payment i =>
      cases hg : mapGet i st.escrows with
      | none => left; simp [stepOutcome, release_x402_payment, hg]
      | some escrow =>
          simp only [stepOutcome, release_x402_payment, hg]
          split_ifs with h1 h2 h3 h4
          · left; exact ⟨rfl, rfl⟩
          · left; exact ⟨rfl, rfl⟩
          · left; exact ⟨rfl, rfl⟩
          · left; exact ⟨rfl, rfl⟩
          · right; right
            exact ⟨i, escrow, _, hg, ⟨not_not.mp h3, Or.inl rfl⟩, rfl, rfl⟩
  | disputeEscrow i =>
      cases hg : mapGet i st.escrows with
      | none => left; simp [stepOutcome, dispute_escrow, hg]
      | some escrow =>
          simp only [stepOutcome, dispute_escrow, hg]
          split_ifs with h1 h2
          · left; exact ⟨rfl, rfl⟩
          · left; exact ⟨rfl, rfl⟩
          · right; right
            exact ⟨i, escrow, _, hg,
              ⟨not_not.mp h2, Or.inr (Or.inr (Or.inl rfl))⟩, rfl, rfl⟩
  | getX402PaymentHash i => left; exact ⟨rfl, rfl⟩
  | isX402Escrow i => left; exact ⟨rfl, rfl⟩
  | getEscrow i => left; exact ⟨rfl, rfl⟩
  | getUserEscrows u => left; exact ⟨rfl, rfl⟩
  | getEscrowCount => left; exact ⟨rfl, rfl⟩
  | isEscrowExpired i => left; exact ⟨rfl, rfl⟩
  | getEscrowTimeout => left; exact ⟨rfl, rfl⟩

/-- A legal transition preserves the per-record invariant. -/
theorem recTrans_recordInv {ts : Nat} {r r2 : EscrowDetails}
    (hr : RecordInv r) (ht : recTrans ts r r2) : RecordInv r2 := by
  obtain ⟨hpend, hcases⟩ := ht
  obtain ⟨hcs, hvh⟩ := hr
  have hnone : r.completed_at = none := hcs.mpr (Or.inl hpend)
  rcases hcases with h | h | h | ⟨hh, h⟩ | ⟨hne, h⟩ <;> subst h <;> constructor
  · simp [completedAtStatus]
  · simpa using hvh
  · simp [completedAtStatus]
  · simpa using hvh
  · simp [completedAtStatus, hnone]
  · simpa using hvh
  · simp [completedAtStatus, hnone, hpend]
  · simp
  · simp [completedAtStatus, hnone, hpend]
  · intro _
    exact hne

/-- Every public message preserves the store invariant. -/
theorem invariant_step (st : PaymentEscrow) (env : Env) (op : Op)
    (hinv : Invariant st) : Invariant (stepOutcome st env op).1 := by
  rcases stepShape st env op with ⟨he, hc⟩ | ⟨rec, hs, hca, hv, he, hc⟩ |
    ⟨k, q, q2, hk, ht, he, hc⟩
  · intro id r hr
    rw [he] at hr
    rw [hc]
    exact hinv id r hr
  · intro id r hr
    rw [he] at hr
    rw [hc]
    by_cases hid : id = st.escrow_count + 1
    · subst hid
      rw [mapGet_mapInsert_self] at hr
      injection hr with hr
      subst hr
      refine ⟨Nat.le_refl _, ?_, ?_⟩
      · simp [completedAtStatus, hca, hs]
      · rw [hv]
        intro h
        cases h
    · rw [mapGet_mapInsert_ne hid] at hr
      rcases hinv id r hr with ⟨h1, h2⟩
      exact ⟨Nat.le_trans h1 (Nat.le_succ _), h2⟩
  · intro id r hr
    rw [he] at hr
    rw [hc]
    by_cases hid : id = k
    · subst hid
      rw [mapGet_mapInsert_self] at hr
      injection hr with hr
      subst hr
      rcases hinv id q hk with ⟨h1, h2⟩
      exact ⟨h1, recTrans_recordInv h2 ht⟩
    · rw [mapGet_mapInsert_ne hid] at hr
      exact hinv id r hr

/-- The store invariant holds along any message sequence. -/
theorem invariant_run (steps : List (Env × Op)) (st : PaymentEscrow)
    (hinv : Invariant st) : Invariant (run st steps) := by
  induction steps generalizing st with
  | nil => exact hinv
  | cons s rest ih => exact ih _ (invariant_step st s.1 s.2 hinv)

/-- The store invariant holds in a freshly constructed contract. -/
theorem invariant_new (t : Nat) : Invariant (PaymentEscrow.new t) := by
  intro id r hr
  simp [PaymentEscrow.new, mapGet] at hr

/-- The store invariant holds in every reachable state. -/
theorem invariant_reachable (t : Nat) (steps : List (Env × Op)) :
    Invariant (reachable t steps) :=
  invariant_run steps _ (invariant_new t)

/-- How one message can change one existing record: immutable fields are
preserved, a non-`Pending` record is never touched, `completed_at` changes
only together with the status, and a transition to `Completed` or `Refunded`
stamps `completed_at` with the current block timestamp. -/
theorem step_record_evolution (st : PaymentEscrow) (env : Env) (op : Op)
    (hinv : Invariant st) (id : Nat) (r r2 : EscrowDetails)
    (hr : mapGet id st.escrows = some r)
    (hr2 : mapGet id (stepOutcome st env op).1.escrows = some r2) :
    frozenFields r r2 ∧
    (r.status ≠ .Pending → r2 = r) ∧
    (r.status = r2.status → r2.completed_at = r.completed_at) ∧
    (r.status = .Pending → (r2.status = .Completed ∨ r2.status = .Refunded) →
      r2.completed_at = some env.blockTimestamp) := by
  rcases stepShape st env op with ⟨he, _⟩ | ⟨rec, hs, hca, hv, he, _⟩ |
    ⟨k, q, q2, hk, ht, he, _⟩
  · rw [he, hr] at hr2
    injection hr2 with hr2
    subst hr2
    refine ⟨⟨rfl, rfl, rfl, rfl, rfl⟩, fun _ => rfl, fun _ => rfl, ?_⟩
    intro hp hc
    rcases hc with h | h <;> rw [hp] at h <;> simp at h
  · have hne : id ≠ st.escrow_count + 1 := by
      intro hcontra
      have := (hinv id r hr).1
      omega
    rw [he, mapGet_mapInsert_ne hne, hr] at hr2
    injection hr2 with hr2
    subst hr2
    refine ⟨⟨rfl, rfl, rfl, rfl, rfl⟩, fun _ => rfl, fun _ => rfl, ?_⟩
    intro hp hc
    rcases hc with h | h <;> rw [hp] at h <;> simp at h
  · by_cases hid : id = k
    · subst hid
      have hqr : q = r := by
        injection (hk.symm.trans hr)
      subst hqr
      rw [he, mapGet_mapInsert_self] at hr2
      injection hr2 with hr2
      subst hr2
      obtain ⟨hpend, hcases⟩ := ht
      rcases hcases with h | h | h | ⟨hh, h⟩ | ⟨hne2, h⟩ <;> subst h <;>
        refine ⟨⟨rfl, rfl, rfl, rfl, rfl⟩, fun hnp => absurd hpend hnp,
          ?_, ?_⟩
      · intro h
        simp [hpend] at h
      · intro _ _
        rfl
      · intro h
        simp [hpend] at h
      · intro _ _
        rfl
      · intro _
        rfl
      · intro _ hc
        rcases hc with h | h <;> simp at h
      · intro _
        rfl
      · intro _ hc
        rcases hc with h | h <;> simp [hpend] at h
      · intro _
        rfl
      · intro _ hc
        rcases hc with h | h <;> simp [hpend] at h
    · rw [he, mapGet_mapInsert_ne hid, hr] at hr2
      injection hr2 with hr2
      subst hr2
      refine ⟨⟨rfl, rfl, rfl, rfl, rfl⟩, fun _ => rfl, fun _ => rfl, ?_⟩
      intro hp hc
      rcases hc with h | h <;> rw [hp] at h <;> simp at h

/-- **C1** (invariants): in every reachable state and for every further public
message, each stored record has `completed_at = none` exactly when its status
is `Pending` or `Disputed` (before and after the message); `payer`, `payee`,
`amount`, `created_at` and `uses_x402` never change; a record whose status has
left `Pending` is never modified again (so the only status changes are
`Pending → Completed/Refunded/Disputed`, each happening at most once);
`completed_at` changes only together with a status change, and is stamped with
the current block timestamp exactly at the transition to `Completed` or
`Refunded` (in particular a dispute leaves it unset). -/
theorem c1_state_machine_and_record_invariants (t : Nat)
    (steps : List (Env × Op)) (env : Env) (op : Op) (id : Nat)
    (r r2 : EscrowDetails)
    (hr : mapGet id (reachable t steps).escrows = some r)
    (hr2 : mapGet id (stepOutcome (reachable t steps) env op).1.escrows =
      some r2) :
    completedAtStatus r ∧ completedAtStatus r2 ∧ frozenFields r r2 ∧
    (r.status ≠ .Pending → r2 = r) ∧
    (r.status = r2.status → r2.completed_at = r.completed_at) ∧
    (r.status = .Pending → (r2.status = .Completed ∨ r2.status = .Refunded) →
      r2.completed_at = some env.blockTimestamp) := by
  have hinv := invariant_reachable t steps
  have hinv2 := invariant_step (reachable t steps) env op hinv
  obtain ⟨hf, hnp, hsame, hstamp⟩ :=
    step_record_evolution (reachable t steps) env op hinv id r r2 hr hr2
  exact ⟨(hinv id r hr).2.1, (hinv2 id r2 hr2).2.1, hf, hnp, hsame, hstamp⟩

/-- Witness for C1: a contract with timeout `0` in which escrow `1` was
created (`Pending`) and is then disputed. -/
theorem c1_witness :
    completedAtStatus
      ⟨1, 1, 2, 5, 0, .Pending, 0, none, "", false, none, false, none⟩ ∧
    completedAtStatus
      ⟨1, 1, 2, 5, 0, .Disputed, 0, none, "", false, none, false, none⟩ ∧
    frozenFields
      ⟨1, 1, 2, 5, 0, .Pending, 0, none, "", false, none, false, none⟩
      ⟨1, 1, 2, 5, 0, .Disputed, 0, none, "", false, none, false, none⟩ ∧
    ((⟨1, 1, 2, 5, 0, .Pending, 0, none, "", false, none, false, none⟩ :
        EscrowDetails).status ≠ .Pending →
      (⟨1, 1, 2, 5, 0, .Disputed, 0, none, "", false, none, false, none⟩ :
        EscrowDetails) =
        ⟨1, 1, 2, 5, 0, .Pending, 0, none, "", false, none, false, none⟩) ∧
    ((⟨1, 1, 2, 5, 0, .Pending, 0, none, "", false, none, false, none⟩ :
        EscrowDetails).status =
      (⟨1, 1, 2, 5, 0, .Disputed, 0, none, "", false, none, false, none⟩ :
        EscrowDetails).status → (none : Option Nat) = none) ∧
    ((⟨1, 1, 2, 5, 0, .Pending, 0, none, "", false, none, false, none⟩ :
        EscrowDetails).status = .Pending →
      ((⟨1, 1, 2, 5, 0, .Disputed, 0, none, "", false, none, false, none⟩ :
          EscrowDetails).status = .Completed ∨
       (⟨1, 1, 2, 5, 0, .Disputed, 0, none, "", false, none, false, none⟩ :
          EscrowDetails).status = .Refunded) →
      (none : Option Nat) = some 0) :=
  c1_state_machine_and_record_invariants 0
    [(⟨1, 5, 0, true⟩, .createEscrow 2 0 "" false none)]
    ⟨1, 0, 0, true⟩ (.disputeEscrow 1) 1
    ⟨1, 1, 2, 5, 0, .Pending, 0, none, "", false, none, false, none⟩
    ⟨1, 1, 2, 5, 0, .Disputed, 0, none, "", false, none, false, none⟩
    rfl rfl

/-- An `errOf` result of `some e` means the call returned `Err(e)`. -/
theorem errOf_eq_some {α : Type} {x : Except Error α} {e : Error}
    (h : errOf x = some e) : x = .error e := by
  cases x with
  | ok a => simp [errOf] at h
  | error e2 => simp [errOf] at h; rw [h]

theorem create_escrow_error_state {st : PaymentEscrow} {env : Env}
    {p s : Nat} {c : String} {u : Bool} {t : Option Nat} {e : Error}
    (h : (create_escrow st env p s c u t).res = .error e) :
    (create_escrow st env p s c u t).state = st := by
  simp only [create_escrow] at h ⊢
  split_ifs at h ⊢ <;> first | rfl | simp at h

theorem release_payment_error_state {st : PaymentEscrow} {env : Env}
    {i : Nat} {e : Error}
    (h : (release_payment st env i).res = .error e) :
    (release_payment st env i).state = st := by
  cases hg : mapGet i st.escrows with
  | none => simp [release_payment, hg]
  | some escrow =>
      simp only [release_payment, is_escrow_expired, hg] at h ⊢
      split_ifs at h ⊢ <;> first | rfl | simp at h

theorem auto_release_payment_error_state {st : PaymentEscrow} {env : Env}
    {i : Nat} {e : Error}
    (h : (auto_release_payment st env i).res = .error e) :
    (auto_release_payment st env i).state = st := by
  cases hg : mapGet i st.escrows with
  | none => simp [auto_release_payment, hg]
  | some escrow =>
      simp only [auto_release_payment, is_escrow_expired, hg] at h ⊢
      split_ifs at h ⊢ <;> first | rfl | simp at h

theorem refund_error_state {st : PaymentEscrow} {env : Env}
    {i : Nat} {e : Error}
    (h : (refund st env i).res = .error e) :
    (refund st env i).state = st := by
  cases hg : mapGet i st.escrows with
  | none => simp [refund, hg]
  | some escrow =>
      simp only [refund, is_escrow_expired, hg] at h ⊢
      split_ifs at h ⊢ <;> first | rfl | simp at h

theorem link_x402_payment_error_state {st : PaymentEscrow} {env : Env}
    {i h2 : Nat} {e : Error}
    (h : (link_x402_payment st env i h2).res = .error e) :
    (link_x402_payment st env i h2).state = st := by
  cases hg : mapGet i st.escrows with
  | none => simp [link_x402_payment, hg]
  | some escrow =>
      simp only [link_x402_payment, hg] at h ⊢
      split_ifs at h ⊢ <;> first | rfl | simp at h

theorem verify_x402_payment_error_state {st : PaymentEscrow} {env : Env}
    {i : Nat} {e : Error}
    (h : (verify_x402_payment st env i).res = .error e) :
    (verify_x402_payment st env i).state = st := by
  cases hg : mapGet i st.escrows with
  | none => simp [verify_x402_payment, hg]
  | some escrow =>
      simp only [verify_x402_payment, hg] at h ⊢
      split_ifs at h ⊢ <;> first | rfl | simp at h

theorem release_x402_payment_error_state {st : PaymentEscrow} {env : Env}
    {i : Nat} {e : Error}
    (h : (release_x402_payment st env i).res = .error e) :
    (release_x402_payment st env i).state = st := by
  cases hg : mapGet i st.escrows with
  | none => simp [release_x402_payment, hg]
  | some escrow =>
      simp only [release_x402_payment, hg] at h ⊢
      split_ifs at h ⊢ <;> first | rfl | simp at h

theorem dispute_escrow_error_state {st : PaymentEscrow} {env : Env}
    {i : Nat} {e : Error}
    (h : (dispute_escrow st env i).res = .error e) :
    (dispute_escrow st env i).state = st := by
  cases hg : mapGet i st.escrows with
  | none => simp [dispute_escrow, hg]
  | some escrow =>
      simp only [dispute_escrow, hg] at h ⊢
      split_ifs at h ⊢ <;> first | rfl | simp at h

/-- **C2** (atomicity on failure): every public message that returns an error
leaves the entire store (records, party index, count, timeout) unchanged; and
whenever the Transfer Gateway fails (`transferOk = false`) while `release`,
`auto_release` or `refund` actually attempts a transfer, the call returns
`TransferFailed` and the state is unchanged. -/
theorem c2_failure_atomicity (st : PaymentEscrow) (env : Env) (op : Op)
    (e : Error) (i : Nat) :
    ((stepOutcome st env op).2 = some e → (stepOutcome st env op).1 = st) ∧
    (env.transferOk = false →
      ((release_payment st env i).transfers ≠ [] →
        (release_payment st env i).res = .error .TransferFailed ∧
        (release_payment st env i).state = st) ∧
      ((auto_release_payment st env i).transfers ≠ [] →
        (auto_release_payment st env i).res = .error .TransferFailed ∧
        (auto_release_payment st env i).state = st) ∧
      ((refund st env i).transfers ≠ [] →
        (refund st env i).res = .error .TransferFailed ∧
        (refund st env i).state = st)) := by
  constructor
  · intro h
    cases op with
    | createEscrow p s c u t => exact create_escrow_error_state (errOf_eq_some h)
    | releasePayment j => exact release_payment_error_state (errOf_eq_some h)
    | autoReleasePayment j =>
        exact auto_release_payment_error_state (errOf_eq_some h)
    | refund j => exact refund_error_state (errOf_eq_some h)
    | linkX402Payment j h2 =>
        exact link_x402_payment_error_state (errOf_eq_some h)
    | verifyX402Payment j =>
        exact verify_x402_payment_error_state (errOf_eq_some h)
    | releaseX402Payment j =>
        exact release_x402_payment_error_state (errOf_eq_some h)
    | disputeEscrow j => exact dispute_escrow_error_state (errOf_eq_some h)
    | getX402PaymentHash j => rfl
    | isX402Escrow j => rfl
    | getEscrow j => rfl
    | getUserEscrows u => rfl
    | getEscrowCount => rfl
    | isEscrowExpired j => rfl
    | getEscrowTimeout => rfl
  · intro htr
    refine ⟨?_, ?_, ?_⟩
    · cases hg : mapGet i st.escrows with
      | none => simp [release_payment, hg]
      | some escrow =>
          simp only [release_payment, is_escrow_expired, hg]
          split_ifs <;> simp_all
    · cases hg : mapGet i st.escrows with
      | none => simp [auto_release_payment, hg]
      | some escrow =>
          simp only [auto_release_payment, is_escrow_expired, hg]
          split_ifs <;> simp_all
    · cases hg : mapGet i st.escrows with
      | none => simp [refund, hg]
      | some escrow =>
          simp only [refund, is_escrow_expired, hg]
          split_ifs <;> simp_all

/-- Witness for C2: on a pending escrow, a release whose transfer fails
returns `TransferFailed` and leaves the state unchanged. -/
theorem c2_witness :
    ((stepOutcome
        (create_escrow (PaymentEscrow.new 10) ⟨1, 5, 0, true⟩ 2 0 "" false
          none).state
        ⟨1, 0, 0, false⟩ (.releasePayment 1)).1 =
      (create_escrow (PaymentEscrow.new 10) ⟨1, 5, 0, true⟩ 2 0 "" false
        none).state) ∧
    ((release_payment
        (create_escrow (PaymentEscrow.new 10) ⟨1, 5, 0, true⟩ 2 0 "" false
          none).state
        ⟨1, 0, 0, false⟩ 1).res = .error .TransferFailed) := by
  refine ⟨(c2_failure_atomicity
      (create_escrow (PaymentEscrow.new 10) ⟨1, 5, 0, true⟩ 2 0 "" false
        none).state
      ⟨1, 0, 0, false⟩ (.releasePayment 1) .TransferFailed 1).1 rfl,
    (((c2_failure_atomicity
      (create_escrow (PaymentEscrow.new 10) ⟨1, 5, 0, true⟩ 2 0 "" false
        none).state
      ⟨1, 0, 0, false⟩ (.releasePayment 1) .TransferFailed 1).2 rfl).1
      (by decide)).1⟩

/-- **C3** (timeout gating): for a pending non-external-channel escrow,
`release_payment` by the payer succeeds before expiry (transferring `amount`
to the payee and completing the record) and fails with `EscrowExpired` after
expiry; `auto_release_payment` by the payee fails with `InvalidStatus` before
expiry and succeeds after it; any other caller gets `Unauthorized` from the
respective message. -/
theorem c3_timeout_gating (st : PaymentEscrow) (env : Env) (id : Nat)
    (r : EscrowDetails) (hr : mapGet id st.escrows = some r)
    (hp : r.status = .Pending) (hx : r.uses_x402 = false) :
    (env.caller = r.payer →
      ¬ st.escrow_timeout < env.blockTimestamp - r.created_at →
      env.transferOk = true →
      (release_payment st env id).res = .ok () ∧
      (release_payment st env id).transfers = [(r.payee, r.amount)] ∧
      mapGet id (release_payment st env id).state.escrows =
        some { r with status := .Completed,
                      completed_at := some env.blockTimestamp }) ∧
    (env.caller = r.payer →
      st.escrow_timeout < env.blockTimestamp - r.created_at →
      (release_payment st env id).res = .error .EscrowExpired) ∧
    (env.caller ≠ r.payer →
      (release_payment st env id).res = .error .Unauthorized) ∧
    (env.caller = r.payee →
      ¬ st.escrow_timeout < env.blockTimestamp - r.created_at →
      (auto_release_payment st env id).res = .error .InvalidStatus) ∧
    (env.caller = r.payee →
      st.escrow_timeout < env.blockTimestamp - r.created_at →
      env.transferOk = true →
      (auto_release_payment st env id).res = .ok () ∧
      (auto_release_payment st env id).transfers = [(r.payee, r.amount)] ∧
      mapGet id (auto_release_payment st env id).state.escrows =
        some { r with status := .Completed,
                      completed_at := some env.blockTimestamp }) ∧
    (env.caller ≠ r.payee →
      (auto_release_payment st env id).res = .error .Unauthorized) := by
  refine ⟨?_, ?_, ?_, ?_, ?_, ?_⟩
  · intro hc hne htr
    simp only [release_payment, is_escrow_expired, hr]
    rw [if_neg (not_not_intro hc.symm), if_neg (not_not_intro hp),
      if_neg (show ¬(r.uses_x402 = true) by simp [hx]),
      if_neg (show ¬(decide (st.escrow_timeout <
        env.blockTimestamp - r.created_at) = true) by simp [hne]),
      if_neg (show ¬((!env.transferOk) = true) by simp [htr])]
    exact ⟨rfl, rfl, by rw [mapGet_mapInsert_self]⟩
  · intro hc hexp
    simp only [release_payment, is_escrow_expired, hr]
    rw [if_neg (not_not_intro hc.symm), if_neg (not_not_intro hp),
      if_neg (show ¬(r.uses_x402 = true) by simp [hx]),
      if_pos (show decide (st.escrow_timeout <
        env.blockTimestamp - r.created_at) = true by simp [hexp])]
  · intro hc
    simp only [release_payment, is_escrow_expired, hr]
    rw [if_pos (show r.payer ≠ env.caller from fun hh => hc hh.symm)]
  · intro hc hne
    simp only [auto_release_payment, is_escrow_expired, hr]
    rw [if_neg (not_not_intro hc.symm), if_neg (not_not_intro hp),
      if_pos (show (!decide (st.escrow_timeout <
        env.blockTimestamp - r.created_at)) = true by simp [hne])]
  · intro hc hexp htr
    simp only [auto_release_payment, is_escrow_expired, hr]
    rw [if_neg (not_not_intro hc.symm), if_neg (not_not_intro hp),
      if_neg (show ¬((!decide (st.escrow_timeout <
        env.blockTimestamp - r.created_at)) = true) by simp [hexp]),
      if_neg (show ¬((!env.transferOk) = true) by simp [htr])]
    exact ⟨rfl, rfl, by rw [mapGet_mapInsert_self]⟩
  · intro hc
    simp only [auto_release_payment, is_escrow_expired, hr]
    rw [if_pos (show r.payee ≠ env.caller from fun hh => hc hh.symm)]

/-- Witness for C3: an expired pending escrow; the payee's `release_payment`
is `Unauthorized` while the payee's `auto_release_payment` succeeds. -/
theorem c3_witness :
    (release_payment
      (create_escrow (PaymentEscrow.new 10) ⟨1, 5, 0, true⟩ 2 0 "" false
        none).state ⟨2, 0, 20, true⟩ 1).res = .error .Unauthorized ∧
    (auto_release_payment
      (create_escrow (PaymentEscrow.new 10) ⟨1, 5, 0, true⟩ 2 0 "" false
        none).state ⟨2, 0, 20, true⟩ 1).res = .ok () :=
  ⟨(c3_timeout_gating
      (create_escrow (PaymentEscrow.new 10) ⟨1, 5, 0, true⟩ 2 0 "" false
        none).state ⟨2, 0, 20, true⟩ 1
      ⟨1, 1, 2, 5, 0, .Pending, 0, none, "", false, none, false, none⟩
      rfl rfl rfl).2.2.1 (by decide),
   ((c3_timeout_gating
      (create_escrow (PaymentEscrow.new 10) ⟨1, 5, 0, true⟩ 2 0 "" false
        none).state ⟨2, 0, 20, true⟩ 1
      ⟨1, 1, 2, 5, 0, .Pending, 0, none, "", false, none, false, none⟩
      rfl rfl rfl).2.2.2.2.1 rfl (by decide) rfl).1⟩

/-- **C4** (refund authorization): on a pending escrow, `refund` succeeds for
the payer at any time and for the payee only when the escrow is expired, in
both cases transferring `amount` back to the payer and setting
`Refunded`/`completed_at = now`; any other caller (including the payee before
expiry) gets `Unauthorized`; an authorized caller on a non-pending escrow
gets `InvalidStatus`. -/
theorem c4_refund_authorization (st : PaymentEscrow) (env : Env) (id : Nat)
    (r : EscrowDetails) (hr : mapGet id st.escrows = some r) :
    (r.status = .Pending → env.caller = r.payer → env.transferOk = true →
      (refund st env id).res = .ok () ∧
      (refund st env id).transfers = [(r.payer, r.amount)] ∧
      mapGet id (refund st env id).state.escrows =
        some { r with status := .Refunded,
                      completed_at := some env.blockTimestamp }) ∧
    (r.status = .Pending → env.caller = r.payee →
      st.escrow_timeout < env.blockTimestamp - r.created_at →
      env.transferOk = true →
      (refund st env id).res = .ok () ∧
      (refund st env id).transfers = [(r.payer, r.amount)] ∧
      mapGet id (refund st env id).state.escrows =
        some { r with status := .Refunded,
                      completed_at := some env.blockTimestamp }) ∧
    (env.caller ≠ r.payer →
      (env.caller ≠ r.payee ∨
        ¬ st.escrow_timeout < env.blockTimestamp - r.created_at) →
      (refund st env id).res = .error .Unauthorized) ∧
    (r.status ≠ .Pending →
      (env.caller = r.payer ∨ (env.caller = r.payee ∧
        st.escrow_timeout < env.blockTimestamp - r.created_at)) →
      (refund st env id).res = .error .InvalidStatus) := by
  refine ⟨?_, ?_, ?_, ?_⟩
  · intro hp hc htr
    simp only [refund, is_escrow_expired, hr]
    rw [if_neg (not_not_intro (Or.inl hc.symm)), if_neg (not_not_intro hp),
      if_neg (show ¬((!env.transferOk) = true) by simp [htr])]
    exact ⟨rfl, rfl, by rw [mapGet_mapInsert_self]⟩
  · intro hp hc hexp htr
    simp only [refund, is_escrow_expired, hr]
    rw [if_neg (not_not_intro (Or.inr ⟨hc.symm, by simp [hexp]⟩)),
      if_neg (not_not_intro hp),
      if_neg (show ¬((!env.transferOk) = true) by simp [htr])]
    exact ⟨rfl, rfl, by rw [mapGet_mapInsert_self]⟩
  · intro hc1 hc2
    simp only [refund, is_escrow_expired, hr]
    rw [if_pos (show ¬(r.payer = env.caller ∨ (r.payee = env.caller ∧
        decide (st.escrow_timeout < env.blockTimestamp - r.created_at) =
          true)) by
      rintro (ha | ⟨hb1, hb2⟩)
      · exact hc1 ha.symm
      · rcases hc2 with hc2 | hc2
        · exact hc2 hb1.symm
        · simp at hb2
          exact hc2 hb2)]
  · intro hnp hauth
    simp only [refund, is_escrow_expired, hr]
    rw [if_neg (not_not_intro (by
        rcases hauth with ha | ⟨hb1, hb2⟩
        · exact Or.inl ha.symm
        · exact Or.inr ⟨hb1.symm, by simp [hb2]⟩)),
      if_pos hnp]

/-- Witness for C4: the payer refunds a pending escrow before expiry. -/
theorem c4_witness :
    (refund
      (create_escrow (PaymentEscrow.new 10) ⟨1, 5, 0, true⟩ 2 0 "" false
        none).state ⟨1, 0, 3, true⟩ 1).res = .ok () ∧
    (refund
      (create_escrow (PaymentEscrow.new 10) ⟨1, 5, 0, true⟩ 2 0 "" false
        none).state ⟨1, 0, 3, true⟩ 1).transfers = [(1, 5)] ∧
    mapGet 1 (refund
      (create_escrow (PaymentEscrow.new 10) ⟨1, 5, 0, true⟩ 2 0 "" false
        none).state ⟨1, 0, 3, true⟩ 1).state.escrows =
      some ⟨1, 1, 2, 5, 0, .Refunded, 0, some 3, "", false, none, false,
        none⟩ :=
  (c4_refund_authorization
    (create_escrow (PaymentEscrow.new 10) ⟨1, 5, 0, true⟩ 2 0 "" false
      none).state ⟨1, 0, 3, true⟩ 1
    ⟨1, 1, 2, 5, 0, .Pending, 0, none, "", false, none, false, none⟩
    rfl).1 rfl rfl rfl

/-- **C5** (external-channel settlement): on a reachable pending escrow with
`uses_x402 = true`, manual `release_payment` by the payer is rejected with
`InvalidStatus` and attempts no transfer; `release_x402_payment` by the payee
succeeds exactly when `x402_verified` is true (which, by the store invariant,
requires a previously linked payment hash), in which case no transfer is
attempted and the escrow completes with `completed_at = now`; with
`x402_verified` false the payee gets `InvalidStatus`, and a non-payee caller
gets `Unauthorized`. -/
theorem c5_external_channel_settlement (t : Nat) (steps : List (Env × Op))
    (env : Env) (id : Nat) (r : EscrowDetails)
    (hr : mapGet id (reachable t steps).escrows = some r)
    (hp : r.status = .Pending) (hx : r.uses_x402 = true) :
    (env.caller = r.payer →
      (release_payment (reachable t steps) env id).res =
        .error .InvalidStatus ∧
      (release_payment (reachable t steps) env id).transfers = []) ∧
    (env.caller = r.payee →
      ((release_x402_payment (reachable t steps) env id).res = .ok () ↔
        r.x402_verified = true) ∧
      (r.x402_verified = true →
        r.x402_payment_hash ≠ none ∧
        (release_x402_payment (reachable t steps) env id).transfers = [] ∧
        mapGet id
          (release_x402_payment (reachable t steps) env id).state.escrows =
          some { r with status := .Completed,
                        completed_at := some env.blockTimestamp }) ∧
      (r.x402_verified = false →
        (release_x402_payment (reachable t steps) env id).res =
          .error .InvalidStatus)) ∧
    (env.caller ≠ r.payee →
      (release_x402_payment (reachable t steps) env id).res =
        .error .Unauthorized) := by
  refine ⟨?_, ?_, ?_⟩
  · intro hc
    simp only [release_payment, is_escrow_expired, hr]
    rw [if_neg (not_not_intro hc.symm), if_neg (not_not_intro hp),
      if_pos hx]
    exact ⟨rfl, rfl⟩
  · intro hc
    cases hvb : r.x402_verified with
    | false =>
        have herr : (release_x402_payment (reachable t steps) env id).res =
            .error .InvalidStatus := by
          simp only [release_x402_payment, hr]
          rw [if_neg (not_not_intro hc.symm),
            if_neg (show ¬((!r.uses_x402) = true) by simp [hx]),
            if_neg (not_not_intro hp),
            if_pos (show (!r.x402_verified) = true by simp [hvb])]
        refine ⟨⟨fun hok => ?_, fun hvt => ?_⟩, fun hvt => ?_, fun _ => herr⟩
        · rw [herr] at hok
          cases hok
        · cases hvt
        · cases hvt
    | true =>
        have hhash : r.x402_payment_hash ≠ none :=
          ((invariant_reachable t steps) id r hr).2.2 hvb
        simp only [release_x402_payment, hr]
        rw [if_neg (not_not_intro hc.symm),
          if_neg (show ¬((!r.uses_x402) = true) by simp [hx]),
          if_neg (not_not_intro hp),
          if_neg (show ¬((!r.x402_verified) = true) by simp [hvb])]
        refine ⟨⟨fun _ => ?_, fun _ => ?_⟩, fun _ => ⟨hhash, ?_, ?_⟩,
          fun hvf => ?_⟩
        · trivial
        · rfl
        · rfl
        · rw [mapGet_mapInsert_self, hvb]
        · cases hvf
  · intro hc
    simp only [release_x402_payment, hr]
    rw [if_pos (show r.payee ≠ env.caller from fun hh => hc hh.symm)]

/-- Witness for C5: after create/link/verify on an external-channel escrow,
the payer's manual release is `InvalidStatus` and the payee's external
release succeeds with no transfer. -/
theorem c5_witness :
    (release_payment
      (reachable 10 [(⟨1, 0, 0, true⟩, .createEscrow 2 0 "" true none),
        (⟨1, 0, 0, true⟩, .linkX402Payment 1 42),
        (⟨2, 0, 0, true⟩, .verifyX402Payment 1)])
      ⟨1, 0, 5, true⟩ 1).res = .error .InvalidStatus ∧
    (release_x402_payment
      (reachable 10 [(⟨1, 0, 0, true⟩, .createEscrow 2 0 "" true none),
        (⟨1, 0, 0, true⟩, .linkX402Payment 1 42),
        (⟨2, 0, 0, true⟩, .verifyX402Payment 1)])
      ⟨2, 0, 5, true⟩ 1).res = .ok () ∧
    (release_x402_payment
      (reachable 10 [(⟨1, 0, 0, true⟩, .createEscrow 2 0 "" true none),
        (⟨1, 0, 0, true⟩, .linkX402Payment 1 42),
        (⟨2, 0, 0, true⟩, .verifyX402Payment 1)])
      ⟨2, 0, 5, true⟩ 1).transfers = [] :=
  ⟨((c5_external_channel_settlement 10
      [(⟨1, 0, 0, true⟩, .createEscrow 2 0 "" true none),
        (⟨1, 0, 0, true⟩, .linkX402Payment 1 42),
        (⟨2, 0, 0, true⟩, .verifyX402Payment 1)]
      ⟨1, 0, 5, true⟩ 1
      ⟨1, 1, 2, 0, 0, .Pending, 0, none, "", true, some 42, true, none⟩
      rfl rfl rfl).1 rfl).1,
    ((c5_external_channel_settlement 10
      [(⟨1, 0, 0, true⟩, .createEscrow 2 0 "" true none),
        (⟨1, 0, 0, true⟩, .linkX402Payment 1 42),
        (⟨2, 0, 0, true⟩, .verifyX402Payment 1)]
      ⟨2, 0, 5, true⟩ 1
      ⟨1, 1, 2, 0, 0, .Pending, 0, none, "", true, some 42, true, none⟩
      rfl rfl rfl).2.1 rfl).1.mpr rfl,
    (((c5_external_channel_settlement 10
      [(⟨1, 0, 0, true⟩, .createEscrow 2 0 "" true none),
        (⟨1, 0, 0, true⟩, .linkX402Payment 1 42),
        (⟨2, 0, 0, true⟩, .verifyX402Payment 1)]
      ⟨2, 0, 5, true⟩ 1
      ⟨1, 1, 2, 0, 0, .Pending, 0, none, "", true, some 42, true, none⟩
      rfl rfl rfl).2.1 rfl).2.1 rfl).2.1⟩

/-- **C6** (linkage notification): evidence against the claim as stated: a
successful `link_x402_payment` on a pending external-channel escrow returns
`Ok`, stores the supplied payment hash, but emits no event at all — the
declared `X402PaymentLinked` event is never emitted by the contract. -/
theorem c6_link_stores_hash_but_emits_no_event :
    (link_x402_payment
      (create_escrow (PaymentEscrow.new 10) ⟨1, 0, 0, true⟩ 2 0 "" true
        none).state ⟨1, 0, 0, true⟩ 1 42).res = .ok () ∧
    get_x402_payment_hash
      (link_x402_payment
        (create_escrow (PaymentEscrow.new 10) ⟨1, 0, 0, true⟩ 2 0 "" true
          none).state ⟨1, 0, 0, true⟩ 1 42).state 1 = .ok (some 42) ∧
    (link_x402_payment
      (create_escrow (PaymentEscrow.new 10) ⟨1, 0, 0, true⟩ 2 0 "" true
        none).state ⟨1, 0, 0, true⟩ 1 42).events = [] :=
  ⟨rfl, rfl, rfl⟩

/-- **C7** (expiry predicate): `is_escrow_expired` returns
`elapsed > escrow_timeout` with saturating subtraction for an existing
escrow (in particular `false` when the elapsed time equals the timeout
exactly), and `EscrowNotFound` for an absent id. -/
theorem c7_expiry_predicate (st : PaymentEscrow) (env : Env) (id : Nat) :
    (mapGet id st.escrows = none →
      is_escrow_expired st env id = .error .EscrowNotFound) ∧
    (∀ r, mapGet id st.escrows = some r →
      is_escrow_expired st env id =
        .ok (decide (st.escrow_timeout <
          env.blockTimestamp - r.created_at)) ∧
      (env.blockTimestamp - r.created_at = st.escrow_timeout →
        is_escrow_expired st env id = .ok false)) := by
  constructor
  · intro h
    simp [is_escrow_expired, h]
  · intro r h
    constructor
    · simp [is_escrow_expired, h]
    · intro heq
      simp [is_escrow_expired, h, heq]

/-- Witness for C7: at the exact timeout boundary the escrow is not expired,
and a missing id yields `EscrowNotFound`. -/
theorem c7_witness :
    is_escrow_expired
      (create_escrow (PaymentEscrow.new 10) ⟨1, 5, 0, true⟩ 2 0 "" false
        none).state ⟨1, 0, 10, true⟩ 1 = .ok false ∧
    is_escrow_expired
      (create_escrow (PaymentEscrow.new 10) ⟨1, 5, 0, true⟩ 2 0 "" false
        none).state ⟨1, 0, 10, true⟩ 2 = .error .EscrowNotFound :=
  ⟨((c7_expiry_predicate
      (create_escrow (PaymentEscrow.new 10) ⟨1, 5, 0, true⟩ 2 0 "" false
        none).state ⟨1, 0, 10, true⟩ 1).2
      ⟨1, 1, 2, 5, 0, .Pending, 0, none, "", false, none, false, none⟩
      rfl).2 rfl,
    (c7_expiry_predicate
      (create_escrow (PaymentEscrow.new 10) ⟨1, 5, 0, true⟩ 2 0 "" false
        none).state ⟨1, 0, 10, true⟩ 2).1 rfl⟩

/-- **C8** (creation semantics): with the external-channel flag off a zero
attached value fails with `InvalidAmount` and changes nothing (no id is
consumed); otherwise creation succeeds, returns `escrow_count + 1`, stores a
`Pending` record with `completed_at = none`, and appends the new id to the
payer's and then the payee's index list — twice to the same list when payer
equals payee. -/
theorem c8_creation_semantics (st : PaymentEscrow) (env : Env)
    (payee service_id : Nat) (payment_code : String) (uses_x402 : Bool)
    (x402_token_address : Option Nat) :
    (uses_x402 = false → env.transferredValue = 0 →
      (create_escrow st env payee service_id payment_code uses_x402
        x402_token_address).res = .error .InvalidAmount ∧
      (create_escrow st env payee service_id payment_code uses_x402
        x402_token_address).state = st) ∧
    (uses_x402 = true ∨ env.transferredValue ≠ 0 →
      (create_escrow st env payee service_id payment_code uses_x402
        x402_token_address).res = .ok (st.escrow_count + 1) ∧
      (create_escrow st env payee service_id payment_code uses_x402
        x402_token_address).state.escrow_count = st.escrow_count + 1 ∧
      mapGet (st.escrow_count + 1)
        (create_escrow st env payee service_id payment_code uses_x402
          x402_token_address).state.escrows =
        some ⟨st.escrow_count + 1, env.caller, payee,
          balanceTryIntoOrDefault env.transferredValue, service_id,
          .Pending, env.blockTimestamp, none, payment_code, uses_x402,
          none, false, x402_token_address⟩ ∧
      (env.caller ≠ payee →
        get_user_escrows
          (create_escrow st env payee service_id payment_code uses_x402
            x402_token_address).state env.caller =
          get_user_escrows st env.caller ++ [st.escrow_count + 1] ∧
        get_user_escrows
          (create_escrow st env payee service_id payment_code uses_x402
            x402_token_address).state payee =
          get_user_escrows st payee ++ [st.escrow_count + 1]) ∧
      (env.caller = payee →
        get_user_escrows
          (create_escrow st env payee service_id payment_code uses_x402
            x402_token_address).state payee =
          get_user_escrows st payee ++
            [st.escrow_count + 1, st.escrow_count + 1])) := by
  constructor
  · intro hu hv
    simp only [create_escrow]
    split_ifs with h0
    · exact ⟨rfl, rfl⟩
    · exfalso
      simp [hu, hv] at h0
  · intro h
    simp only [create_escrow, get_user_escrows]
    split_ifs with h0
    · exfalso
      rcases h with h | h <;> simp [h] at h0
    · refine ⟨rfl, rfl, by rw [mapGet_mapInsert_self], ?_, ?_⟩
      · intro hne
        constructor
        · rw [mapGet_mapInsert_ne hne, mapGet_mapInsert_self]
          rfl
        · rw [mapGet_mapInsert_self,
            mapGet_mapInsert_ne (fun hh => hne hh.symm)]
          rfl
      · intro heq
        subst heq
        rw [mapGet_mapInsert_self, mapGet_mapInsert_self]
        simp

/-- Witness for C8: a self-dealing creation (payer equals payee) stores the
new id twice in that party's index list. -/
theorem c8_witness :
    (create_escrow (PaymentEscrow.new 10) ⟨1, 5, 0, true⟩ 1 0 "" false
      none).res = .ok 1 ∧
    get_user_escrows
      (create_escrow (PaymentEscrow.new 10) ⟨1, 5, 0, true⟩ 1 0 "" false
        none).state 1 = [1, 1] :=
  ⟨((c8_creation_semantics (PaymentEscrow.new 10) ⟨1, 5, 0, true⟩ 1 0 ""
      false none).2 (Or.inr (by decide))).1,
    ((c8_creation_semantics (PaymentEscrow.new 10) ⟨1, 5, 0, true⟩ 1 0 ""
      false none).2 (Or.inr (by decide))).2.2.2.2 rfl⟩

/-- **C9** (re-linking does not reset verification): after link(11), verify,
then link(22) on a pending external-channel escrow, the stored hash is `22`
while `x402_verified` is still `true`, and the payee's
`release_x402_payment` then completes the escrow against the never-verified
hash `22`. -/
theorem c9_relink_keeps_verified :
    get_x402_payment_hash
      (link_x402_payment
        (verify_x402_payment
          (link_x402_payment
            (create_escrow (PaymentEscrow.new 100) ⟨1, 0, 0, true⟩ 2 0 ""
              true none).state ⟨1, 0, 0, true⟩ 1 11).state
          ⟨2, 0, 0, true⟩ 1).state ⟨1, 0, 0, true⟩ 1 22).state 1 =
      .ok (some 22) ∧
    mapGet 1
      (link_x402_payment
        (verify_x402_payment
          (link_x402_payment
            (create_escrow (PaymentEscrow.new 100) ⟨1, 0, 0, true⟩ 2 0 ""
              true none).state ⟨1, 0, 0, true⟩ 1 11).state
          ⟨2, 0, 0, true⟩ 1).state ⟨1, 0, 0, true⟩ 1 22).state.escrows =
      some ⟨1, 1, 2, 0, 0, .Pending, 0, none, "", true, some 22, true,
        none⟩ ∧
    (release_x402_payment
      (link_x402_payment
        (verify_x402_payment
          (link_x402_payment
            (create_escrow (PaymentEscrow.new 100) ⟨1, 0, 0, true⟩ 2 0 ""
              true none).state ⟨1, 0, 0, true⟩ 1 11).state
          ⟨2, 0, 0, true⟩ 1).state ⟨1, 0, 0, true⟩ 1 22).state
      ⟨2, 0, 5, true⟩ 1).res = .ok () ∧
    mapGet 1
      (release_x402_payment
        (link_x402_payment
          (verify_x402_payment
            (link_x402_payment
              (create_escrow (PaymentEscrow.new 100) ⟨1, 0, 0, true⟩ 2 0 ""
                true none).state ⟨1, 0, 0, true⟩ 1 11).state
            ⟨2, 0, 0, true⟩ 1).state ⟨1, 0, 0, true⟩ 1 22).state
        ⟨2, 0, 5, true⟩ 1).state.escrows =
      some ⟨1, 1, 2, 0, 0, .Completed, 0, some 5, "", true, some 22, true,
        none⟩ :=
  ⟨rfl, rfl, rfl, rfl⟩

/-- **C10** (silent amount truncation): attaching `2 ^ 128` (one more than
`u128::MAX`) to a non-external-channel creation passes the non-zero check
(performed on the full attached value) but stores and reports `amount = 0`,
the `unwrap_or_default` fallback. -/
theorem c10_amount_truncation :
    (create_escrow (PaymentEscrow.new 3600000) ⟨5, 2 ^ 128, 0, true⟩ 7 9 ""
      false none).res = .ok 1 ∧
    mapGet 1
      (create_escrow (PaymentEscrow.new 3600000) ⟨5, 2 ^ 128, 0, true⟩ 7 9
        "" false none).state.escrows =
      some ⟨1, 5, 7, 0, 9, .Pending, 0, none, "", false, none, false,
        none⟩ ∧
    (create_escrow (PaymentEscrow.new 3600000) ⟨5, 2 ^ 128, 0, true⟩ 7 9 ""
      false none).events = [.EscrowCreated 1 5 7 0 9] :=
  ⟨rfl, rfl, rfl⟩
